import Mathlib

/-!
Shallow embedding of the LPC bus decoder from `src/lpc-dec.c` (lpc-dec).

The decoder consumes one sample byte at a time, detects falling clock
edges, and drives a phase state machine (wait-for-frame, START, ADDR,
DATA, TAR, SYNC) that reassembles LPC bus cycles.  The embedding keeps
the source's field and function names.  `printf` output that carries
protocol information (decoded-cycle dumps, unsupported-cycle-type and
unknown-state diagnostics) is modelled as a list of emitted events.
Machine integers are modelled as `Nat` with explicit `% 2^w` where the
source relies on fixed-width wraparound.  The 9-element `aenmState`
array is modelled as a total map `Nat → LPCDECSTATE` together with the
running index `idxState`; the extra ghost field `idxStateWriteMax`
records the largest array index any write has touched, so that the
in-bounds property of the unchecked C array writes is expressible.
-/

/-- Phase enum `LPCDECSTATE` from the source.  `INVALID` stands for the
`LPCDECSTATE_INVALID` value (and any other value outside the phases the
decoder dispatches on); the `LPCDECSTATE_32BIT_HACK` member only forces
the C enum width and is not a state. -/
inductive LPCDECSTATE where
  | INVALID
  | LFRAME_WAIT_ASSERTED
  | START
  | ADDR
  | DATA
  | TAR
  | SYNC
deriving DecidableEq, Repr

/-- Decoder state struct `LPCDEC` from the source.  `aenmState` is the
9-element phase-history array modelled as a total map, `idxState` the
`uint32_t` write index.  `idxStateWriteMax` is ghost instrumentation
(not a C field): the largest index at which `aenmState` has been
written since initialization, maintained by exactly the operations that
write the array. -/
structure LPCDEC where
  u8BitLClk : Nat
  u8BitLFrame : Nat
  u8BitLad0 : Nat
  u8BitLad1 : Nat
  u8BitLad2 : Nat
  u8BitLad3 : Nat
  idxState : Nat
  aenmState : Nat → LPCDECSTATE
  uSeqNoCycle : Nat
  fClkLast : Bool
  bStartLast : Nat
  bTyp : Nat
  fWrite : Bool
  cAddrCycles : Nat
  cDataCycles : Nat
  iDataCycle : Nat
  cTarCycles : Nat
  u32Addr : Nat
  bData : Nat
  idxStateWriteMax : Nat

/-- Point update of the modelled `aenmState` array. -/
def arrayWrite (f : Nat → LPCDECSTATE) (i : Nat) (v : LPCDECSTATE) : Nat → LPCDECSTATE :=
  fun j => if j = i then v else f j

/-- Decoded-cycle record as printed by `lpcDecStateDump`: the sequence
number, cycle type, direction, address and data accumulated in the
decoder state, plus the `fAbort` flag passed to the dump. -/
structure LPCCYCLE where
  uSeqNoCycle : Nat
  bTyp : Nat
  fWrite : Bool
  u32Addr : Nat
  bData : Nat
  fAbort : Bool
deriving DecidableEq, Repr

/-- Observable output of the decoder: a decoded-cycle dump
(`lpcDecStateDump`), the ILLEGAL/unsupported-cycle-type diagnostic from
`lpcDecStateStartDecode`, or the `Unknown state` diagnostic from the
default branches of `lpcDecStateSampleAdvance` and
`lpcDecStateSampleProcess`. -/
inductive LPCEVENT where
  | decodedCycle (c : LPCCYCLE)
  | unsupportedCycleType (bTyp : Nat)
  | unknownState (enmState : LPCDECSTATE)
deriving DecidableEq, Repr

/-- `lpcDecStateReset` (src/lpc-dec.c:353): back to the initial
wait-for-LFRAME state, clearing the accumulators.  Writes array index 0
(which never raises the ghost running max). -/
def lpcDecStateReset (s : LPCDEC) : LPCDEC :=
  { s with idxState := 0
         , u32Addr := 0
         , bData := 0
         , iDataCycle := 0
         , aenmState := arrayWrite s.aenmState 0 .LFRAME_WAIT_ASSERTED
         , idxStateWriteMax := max s.idxStateWriteMax 0 }

/-- `lpcDecStateSet` (src/lpc-dec.c:489): increment `idxState` (a
`uint32_t`, hence the `% 2^32`) and write the new phase at the new
index. -/
def lpcDecStateSet (s : LPCDEC) (enmState : LPCDECSTATE) : LPCDEC :=
  { s with idxState := (s.idxState + 1) % 4294967296
         , aenmState := arrayWrite s.aenmState ((s.idxState + 1) % 4294967296) enmState
         , idxStateWriteMax := max s.idxStateWriteMax ((s.idxState + 1) % 4294967296) }

/-- `lpcDecStateInit` (src/lpc-dec.c:375): store the pin map, start with
a low clock, and reset.  The C struct's remaining fields are whatever
the caller's memory held, hence the `s` argument; the ghost write
tracker starts at 0. -/
def lpcDecStateInit (s : LPCDEC) (u8BitClk u8BitLFrame u8BitLad0 u8BitLad1 u8BitLad2 u8BitLad3 : Nat) : LPCDEC :=
  lpcDecStateReset
    { s with u8BitLClk := u8BitClk
           , u8BitLFrame := u8BitLFrame
           , u8BitLad0 := u8BitLad0
           , u8BitLad1 := u8BitLad1
           , u8BitLad2 := u8BitLad2
           , u8BitLad3 := u8BitLad3
           , fClkLast := false
           , idxStateWriteMax := 0 }

/-- `lpcDecStateLadExtractFromSample` (src/lpc-dec.c:393): gather the
four LAD bits of a sample byte into a nibble, LAD0 least significant. -/
def lpcDecStateLadExtractFromSample (s : LPCDEC) (bSample : Nat) : Nat :=
  ((bSample &&& (1 <<< s.u8BitLad0)) >>> s.u8BitLad0)
  ||| (((bSample &&& (1 <<< s.u8BitLad1)) >>> s.u8BitLad1) <<< 1)
  ||| (((bSample &&& (1 <<< s.u8BitLad2)) >>> s.u8BitLad2) <<< 2)
  ||| (((bSample &&& (1 <<< s.u8BitLad3)) >>> s.u8BitLad3) <<< 3)

/-- `lpcDecStateDump` (src/lpc-dec.c:441): the decoded-cycle record the
dump prints, as an event. -/
def lpcDecStateDump (s : LPCDEC) (fAbort : Bool) : LPCEVENT :=
  .decodedCycle ⟨s.uSeqNoCycle, s.bTyp, s.fWrite, s.u32Addr, s.bData, fAbort⟩

/-- `lpcDecStateSampleAdvance` (src/lpc-dec.c:502): the phase-advance
switch invoked when a phase's nibble count reaches zero.  In the TAR
case the C code reads `aenmState[idxState - 1]` with a `uint32_t`
index, hence the wrapping `+ 2^32 - 1` modulo `2^32`.  The default
branch prints `Unknown state`, modelled as an `unknownState` event. -/
def lpcDecStateSampleAdvance (s : LPCDEC) : LPCDEC × List LPCEVENT :=
  match s.aenmState s.idxState with
  | .LFRAME_WAIT_ASSERTED => (s, [])
  | .ADDR =>
      if s.fWrite then
        ({ lpcDecStateSet s .DATA with cDataCycles := 2 }, [])
      else
        ({ lpcDecStateSet s .TAR with cTarCycles := 2 }, [])
  | .DATA => ({ lpcDecStateSet s .TAR with cTarCycles := 2 }, [])
  | .TAR =>
      if s.fWrite then
        if s.aenmState ((s.idxState + 4294967295) % 4294967296) = .DATA then
          (lpcDecStateSet s .SYNC, [])
        else
          (lpcDecStateReset s, [lpcDecStateDump s false])
      else
        if s.aenmState ((s.idxState + 4294967295) % 4294967296) = .ADDR then
          (lpcDecStateSet s .SYNC, [])
        else
          (lpcDecStateReset s, [lpcDecStateDump s false])
  | .SYNC =>
      if s.fWrite then
        ({ lpcDecStateSet s .TAR with cTarCycles := 2 }, [])
      else
        ({ lpcDecStateSet s .DATA with cDataCycles := 2 }, [])
  | st => (s, [.unknownState st])

/-- `lpcDecStateStartDecode` (src/lpc-dec.c:572): classify the cycle
from the LAD nibble when the last START nibble was the target-cycle
value 0x0, reset on the abort value 0xf, otherwise do nothing.  The C
switch on the cycle type (I/O, Memory, DMA/RESERVED/default) is
rendered as an if chain on the same value. -/
def lpcDecStateStartDecode (s : LPCDEC) (bLad : Nat) : LPCDEC × List LPCEVENT :=
  if s.bStartLast = 0x0 then
    let s1 : LPCDEC :=
      { s with bTyp := (bLad &&& 0xc) >>> 2
             , fWrite := (bLad &&& 0x2) != 0
             , u32Addr := 0 }
    let s2 := lpcDecStateSet s1 .ADDR
    if s2.bTyp = 0x0 then
      ({ s2 with cAddrCycles := 4 }, [])
    else if s2.bTyp = 0x1 then
      ({ s2 with cAddrCycles := 8 }, [])
    else
      (lpcDecStateReset s2, [.unsupportedCycleType s2.bTyp])
  else if s.bStartLast = 0xf then
    (lpcDecStateReset s, [])
  else
    (s, [])

/-- `lpcDecStateAddrDecode` (src/lpc-dec.c:609): decrement the `uint8_t`
address-cycle counter (wrapping modulo 256), OR the nibble shifted by
the new count times 4 into the 32-bit address accumulator, and advance
once the counter hits zero. -/
def lpcDecStateAddrDecode (s : LPCDEC) (bLad : Nat) : LPCDEC × List LPCEVENT :=
  let cAddr := (s.cAddrCycles + 255) % 256
  let s1 : LPCDEC :=
    { s with cAddrCycles := cAddr
           , u32Addr := (s.u32Addr ||| (bLad <<< (cAddr * 4))) % 4294967296 }
  if cAddr = 0 then lpcDecStateSampleAdvance s1 else (s1, [])

/-- `lpcDecStateDataDecode` (src/lpc-dec.c:626): OR the nibble shifted
by the current data index times 4 into the 8-bit data accumulator,
increment the `uint8_t` index, and advance when the index equals the
data-cycle count. -/
def lpcDecStateDataDecode (s : LPCDEC) (bLad : Nat) : LPCDEC × List LPCEVENT :=
  let s1 : LPCDEC :=
    { s with bData := (s.bData ||| (bLad <<< (s.iDataCycle * 4))) % 256
           , iDataCycle := (s.iDataCycle + 1) % 256 }
  if s1.iDataCycle = s1.cDataCycles then lpcDecStateSampleAdvance s1 else (s1, [])

/-- `lpcDecStateTarDecode` (src/lpc-dec.c:643): ignore the nibble value,
decrement the `uint8_t` TAR counter, and advance once it hits zero. -/
def lpcDecStateTarDecode (s : LPCDEC) (bLad : Nat) : LPCDEC × List LPCEVENT :=
  let _ := bLad
  let cTar := (s.cTarCycles + 255) % 256
  let s1 : LPCDEC := { s with cTarCycles := cTar }
  if cTar = 0 then lpcDecStateSampleAdvance s1 else (s1, [])

/-- `lpcDecStateSyncDecode` (src/lpc-dec.c:660): advance exactly when
the sampled nibble is zero, otherwise hold. -/
def lpcDecStateSyncDecode (s : LPCDEC) (bLad : Nat) : LPCDEC × List LPCEVENT :=
  if bLad = 0 then lpcDecStateSampleAdvance s else (s, [])

/-- Falling-edge body of `lpcDecStateSampleProcess`
(src/lpc-dec.c:685-725): either handle an asserted LFRAME# (record the
nibble and sequence number, reset, push START, dumping an aborted cycle
first when mid-cycle) or dispatch on the current phase. -/
def lpcDecStateFallingDecode (s : LPCDEC) (uSeqNo : Nat) (bSample : Nat) : LPCDEC × List LPCEVENT :=
  let fLFrame : Bool := (bSample &&& (1 <<< s.u8BitLFrame)) != 0
  let bLad := lpcDecStateLadExtractFromSample s bSample
  if !fLFrame then
    let evts :=
      if s.aenmState s.idxState ≠ .LFRAME_WAIT_ASSERTED
         ∧ s.aenmState s.idxState ≠ .START then
        [lpcDecStateDump s true]
      else
        []
    let s1 : LPCDEC := { s with bStartLast := bLad, uSeqNoCycle := uSeqNo }
    (lpcDecStateSet (lpcDecStateReset s1) .START, evts)
  else
    match s.aenmState s.idxState with
    | .LFRAME_WAIT_ASSERTED => (s, [])
    | .START => lpcDecStateStartDecode s bLad
    | .ADDR => lpcDecStateAddrDecode s bLad
    | .DATA => lpcDecStateDataDecode s bLad
    | .TAR => lpcDecStateTarDecode s bLad
    | .SYNC => lpcDecStateSyncDecode s bLad
    | st => (s, [.unknownState st])

/-- `lpcDecStateSampleProcess` (src/lpc-dec.c:675): extract the clock
bit; if it did not change, return immediately; on a falling edge run
the falling-edge body; finally store the new clock level.  Returns the
C status code (always 0), the new state and the emitted events. -/
def lpcDecStateSampleProcess (s : LPCDEC) (uSeqNo : Nat) (bSample : Nat) : Nat × LPCDEC × List LPCEVENT :=
  let fClk : Bool := (bSample &&& (1 <<< s.u8BitLClk)) != 0
  if fClk = s.fClkLast then
    (0, s, [])
  else
    let res : LPCDEC × List LPCEVENT :=
      if s.fClkLast && !fClk then
        lpcDecStateFallingDecode s uSeqNo bSample
      else
        (s, [])
    (0, { res.1 with fClkLast := fClk }, res.2)

/-- Driver loop of `main` (src/lpc-dec.c:776): feed a list of
(sequence number, sample byte) pairs through the decoder, collecting
the emitted events in order. -/
def lpcDecRun (s : LPCDEC) (samples : List (Nat × Nat)) : LPCDEC × List LPCEVENT :=
  match samples with
  | [] => (s, [])
  | smp :: rest =>
      let r := lpcDecStateSampleProcess s smp.1 smp.2
      let r2 := lpcDecRun r.2.1 rest
      (r2.1, r.2.2 ++ r2.2)

/-- Reachable-state invariant of the decoder: the phase history is one
of the finitely many prefixes an LPC cycle can traverse (at most the
wait state plus six pushed phases), and no `aenmState` write has gone
past index 6. -/
def lpcDecInv (s : LPCDEC) : Prop :=
  s.idxStateWriteMax ≤ 6
  ∧ s.aenmState 0 = .LFRAME_WAIT_ASSERTED
  ∧ (s.idxState = 0
     ∨ (s.idxState = 1 ∧ s.aenmState 1 = .START)
     ∨ (s.idxState = 2 ∧ s.aenmState 1 = .START ∧ s.aenmState 2 = .ADDR)
     ∨ (s.fWrite = true ∧ s.idxState = 3 ∧ s.aenmState 1 = .START ∧ s.aenmState 2 = .ADDR
        ∧ s.aenmState 3 = .DATA)
     ∨ (s.fWrite = true ∧ s.idxState = 4 ∧ s.aenmState 1 = .START ∧ s.aenmState 2 = .ADDR
        ∧ s.aenmState 3 = .DATA ∧ s.aenmState 4 = .TAR)
     ∨ (s.fWrite = true ∧ s.idxState = 5 ∧ s.aenmState 1 = .START ∧ s.aenmState 2 = .ADDR
        ∧ s.aenmState 3 = .DATA ∧ s.aenmState 4 = .TAR ∧ s.aenmState 5 = .SYNC)
     ∨ (s.fWrite = true ∧ s.idxState = 6 ∧ s.aenmState 1 = .START ∧ s.aenmState 2 = .ADDR
        ∧ s.aenmState 3 = .DATA ∧ s.aenmState 4 = .TAR ∧ s.aenmState 5 = .SYNC
        ∧ s.aenmState 6 = .TAR)
     ∨ (s.fWrite = false ∧ s.idxState = 3 ∧ s.aenmState 1 = .START ∧ s.aenmState 2 = .ADDR
        ∧ s.aenmState 3 = .TAR)
     ∨ (s.fWrite = false ∧ s.idxState = 4 ∧ s.aenmState 1 = .START ∧ s.aenmState 2 = .ADDR
        ∧ s.aenmState 3 = .TAR ∧ s.aenmState 4 = .SYNC)
     ∨ (s.fWrite = false ∧ s.idxState = 5 ∧ s.aenmState 1 = .START ∧ s.aenmState 2 = .ADDR
        ∧ s.aenmState 3 = .TAR ∧ s.aenmState 4 = .SYNC ∧ s.aenmState 5 = .DATA)
     ∨ (s.fWrite = false ∧ s.idxState = 6 ∧ s.aenmState 1 = .START ∧ s.aenmState 2 = .ADDR
        ∧ s.aenmState 3 = .TAR ∧ s.aenmState 4 = .SYNC ∧ s.aenmState 5 = .DATA
        ∧ s.aenmState 6 = .TAR))

/-- Concrete decoder state for witnesses: default pin map, idle history,
high stored clock. -/
def baseDec : LPCDEC :=
  ⟨0, 1, 5, 4, 3, 2, 0, fun _ => .LFRAME_WAIT_ASSERTED, 0, true, 0, 0, true, 0, 2, 0, 2, 0, 0, 0⟩

/-- Concrete state in the ADDR phase of a write cycle (history
wait, START, ADDR). -/
def advDemoDec : LPCDEC :=
  { baseDec with
      idxState := 2
    , aenmState := fun k =>
        if k = 2 then .ADDR else if k = 1 then .START else .LFRAME_WAIT_ASSERTED
    , idxStateWriteMax := 2 }

/-- Concrete state in the START phase with a target-cycle start nibble. -/
def startDemoDec : LPCDEC :=
  { baseDec with
      idxState := 1
    , aenmState := fun k => if k = 1 then .START else .LFRAME_WAIT_ASSERTED
    , bStartLast := 0
    , idxStateWriteMax := 1 }

/-- Concrete state at the beginning of a Memory write address phase:
8 address nibbles pending. -/
def addrDemoDec : LPCDEC :=
  { advDemoDec with bTyp := 1, cAddrCycles := 8 }

/-- Concrete state at the beginning of a write data phase (history
wait, START, ADDR, DATA). -/
def dataDemoDec : LPCDEC :=
  { baseDec with
      idxState := 3
    , aenmState := fun k =>
        if k = 3 then .DATA else if k = 2 then .ADDR
        else if k = 1 then .START else .LFRAME_WAIT_ASSERTED
    , bTyp := 1
    , u32Addr := 0x1234
    , idxStateWriteMax := 3 }

/-- Concrete state whose current phase value lies outside the set the
dispatcher knows. -/
def invalidPhaseDec : LPCDEC :=
  { baseDec with aenmState := fun _ => .INVALID }

theorem arrayWrite_self (f : Nat → LPCDECSTATE) (i : Nat) (v : LPCDECSTATE) :
    arrayWrite f i v i = v := by
  simp [arrayWrite]

theorem arrayWrite_other (f : Nat → LPCDECSTATE) (i : Nat) (v : LPCDECSTATE) (j : Nat)
    (h : j ≠ i) : arrayWrite f i v j = f j := by
  simp [arrayWrite, h]

theorem lor_lt_pow2 {x y n : Nat} (hx : x < 2 ^ n) (hy : y < 2 ^ n) : x ||| y < 2 ^ n :=
  Nat.bitwise_lt hx hy

theorem lpcDecInv_reset (s : LPCDEC) (h : s.idxStateWriteMax ≤ 6) :
    lpcDecInv (lpcDecStateReset s) := by
  refine ⟨by simp [lpcDecStateReset]; omega, by simp [lpcDecStateReset, arrayWrite],
          Or.inl (by simp [lpcDecStateReset])⟩

theorem lpcDecInv_of_fields (s t : LPCDEC) (h : lpcDecInv s)
    (h1 : t.idxState = s.idxState) (h2 : t.aenmState = s.aenmState)
    (h3 : t.fWrite = s.fWrite) (h4 : t.idxStateWriteMax = s.idxStateWriteMax) :
    lpcDecInv t := by
  simp only [lpcDecInv, h1, h2, h3, h4]
  exact h

theorem lpcDecInv_advance (s : LPCDEC) (h : lpcDecInv s) :
    lpcDecInv (lpcDecStateSampleAdvance s).1 := by
  obtain ⟨hg, h0, hcase⟩ := h
  rcases hcase with h | h | h | h | h | h | h | h | h | h | h
  · -- idle: current phase is the wait state, advance is a no-op
    have hcur : s.aenmState s.idxState = .LFRAME_WAIT_ASSERTED := by rw [h]; exact h0
    simp only [lpcDecStateSampleAdvance, hcur]
    exact ⟨hg, h0, Or.inl h⟩
  · -- START at index 1: falls into the default arm, state unchanged
    obtain ⟨hi, h1⟩ := h
    have hcur : s.aenmState s.idxState = .START := by rw [hi]; exact h1
    simp only [lpcDecStateSampleAdvance, hcur]
    exact ⟨hg, h0, Or.inr (Or.inl ⟨hi, h1⟩)⟩
  · -- ADDR at index 2
    obtain ⟨hi, h1, h2⟩ := h
    have hcur : s.aenmState s.idxState = .ADDR := by rw [hi]; exact h2
    by_cases hw : s.fWrite = true
    · simp [lpcDecInv, lpcDecStateSampleAdvance, hcur, hw, lpcDecStateSet, arrayWrite,
            hi, h0, h1, h2, Nat.max_le, hg]
    · simp only [Bool.not_eq_true] at hw
      simp [lpcDecInv, lpcDecStateSampleAdvance, hcur, hw, lpcDecStateSet, arrayWrite,
            hi, h0, h1, h2, Nat.max_le, hg]
  · -- write DATA at index 3
    obtain ⟨hw, hi, h1, h2, h3⟩ := h
    have hcur : s.aenmState s.idxState = .DATA := by rw [hi]; exact h3
    simp [lpcDecInv, lpcDecStateSampleAdvance, hcur, hw, lpcDecStateSet, arrayWrite,
          hi, h0, h1, h2, h3, Nat.max_le, hg]
  · -- write TAR at index 4, preceded by DATA: to SYNC
    obtain ⟨hw, hi, h1, h2, h3, h4⟩ := h
    have hcur : s.aenmState s.idxState = .TAR := by rw [hi]; exact h4
    simp [lpcDecInv, lpcDecStateSampleAdvance, hcur, hw, lpcDecStateSet, arrayWrite,
          hi, h0, h1, h2, h3, h4, Nat.max_le, hg]
  · -- write SYNC at index 5: to TAR
    obtain ⟨hw, hi, h1, h2, h3, h4, h5⟩ := h
    have hcur : s.aenmState s.idxState = .SYNC := by rw [hi]; exact h5
    simp [lpcDecInv, lpcDecStateSampleAdvance, hcur, hw, lpcDecStateSet, arrayWrite,
          hi, h0, h1, h2, h3, h4, h5, Nat.max_le, hg]
  · -- write TAR at index 6, preceded by SYNC: dump and reset
    obtain ⟨hw, hi, h1, h2, h3, h4, h5, h6⟩ := h
    have hcur : s.aenmState s.idxState = .TAR := by rw [hi]; exact h6
    simp [lpcDecInv, lpcDecStateSampleAdvance, hcur, hw, lpcDecStateSet, lpcDecStateReset,
          arrayWrite, hi, h0, h1, h2, h3, h4, h5, h6, Nat.max_le, hg]
  · -- read TAR at index 3, preceded by ADDR: to SYNC
    obtain ⟨hw, hi, h1, h2, h3⟩ := h
    have hcur : s.aenmState s.idxState = .TAR := by rw [hi]; exact h3
    simp [lpcDecInv, lpcDecStateSampleAdvance, hcur, hw, lpcDecStateSet, arrayWrite,
          hi, h0, h1, h2, h3, Nat.max_le, hg]
  · -- read SYNC at index 4: to DATA
    obtain ⟨hw, hi, h1, h2, h3, h4⟩ := h
    have hcur : s.aenmState s.idxState = .SYNC := by rw [hi]; exact h4
    simp [lpcDecInv, lpcDecStateSampleAdvance, hcur, hw, lpcDecStateSet, arrayWrite,
          hi, h0, h1, h2, h3, h4, Nat.max_le, hg]
  · -- read DATA at index 5: to TAR
    obtain ⟨hw, hi, h1, h2, h3, h4, h5⟩ := h
    have hcur : s.aenmState s.idxState = .DATA := by rw [hi]; exact h5
    simp [lpcDecInv, lpcDecStateSampleAdvance, hcur, hw, lpcDecStateSet, arrayWrite,
          hi, h0, h1, h2, h3, h4, h5, Nat.max_le, hg]
  · -- read TAR at index 6, preceded by DATA: dump and reset
    obtain ⟨hw, hi, h1, h2, h3, h4, h5, h6⟩ := h
    have hcur : s.aenmState s.idxState = .TAR := by rw [hi]; exact h6
    simp [lpcDecInv, lpcDecStateSampleAdvance, hcur, hw, lpcDecStateSet, lpcDecStateReset,
          arrayWrite, hi, h0, h1, h2, h3, h4, h5, h6, Nat.max_le, hg]

theorem lpcDecInv_startDecode (s : LPCDEC) (bLad : Nat) (h : lpcDecInv s)
    (hcur : s.aenmState s.idxState = .START) :
    lpcDecInv (lpcDecStateStartDecode s bLad).1 := by
  obtain ⟨hg, h0, hcase⟩ := h
  have hi : s.idxState = 1 ∧ s.aenmState 1 = .START := by
    rcases hcase with h | h | h | h | h | h | h | h | h | h | h
    · rw [h] at hcur; rw [h0] at hcur; cases hcur
    · exact h
    · rw [h.1] at hcur; rw [h.2.2] at hcur; cases hcur
    · rw [h.2.1] at hcur; rw [h.2.2.2.2] at hcur; cases hcur
    · rw [h.2.1] at hcur; rw [h.2.2.2.2.2] at hcur; cases hcur
    · rw [h.2.1] at hcur; rw [h.2.2.2.2.2.2] at hcur; cases hcur
    · rw [h.2.1] at hcur; rw [h.2.2.2.2.2.2.2] at hcur; cases hcur
    · rw [h.2.1] at hcur; rw [h.2.2.2.2] at hcur; cases hcur
    · rw [h.2.1] at hcur; rw [h.2.2.2.2.2] at hcur; cases hcur
    · rw [h.2.1] at hcur; rw [h.2.2.2.2.2.2] at hcur; cases hcur
    · rw [h.2.1] at hcur; rw [h.2.2.2.2.2.2.2] at hcur; cases hcur
  obtain ⟨hi1, hS⟩ := hi
  by_cases hb : s.bStartLast = 0
  · by_cases ht0 : (bLad &&& 0xc) >>> 2 = 0
    · simp [lpcDecInv, lpcDecStateStartDecode, hb, ht0, lpcDecStateSet, arrayWrite,
            hi1, h0, hS, Nat.max_le, hg]
    · by_cases ht1 : (bLad &&& 0xc) >>> 2 = 1
      · simp [lpcDecInv, lpcDecStateStartDecode, hb, ht0, ht1, lpcDecStateSet, arrayWrite,
              hi1, h0, hS, Nat.max_le, hg]
      · simp [lpcDecInv, lpcDecStateStartDecode, hb, ht0, ht1, lpcDecStateSet,
              lpcDecStateReset, arrayWrite, hi1, h0, hS, Nat.max_le, hg]
  · by_cases hf : s.bStartLast = 0xf
    · simp only [lpcDecStateStartDecode, hb, hf, if_false, if_true]
      exact lpcDecInv_reset s hg
    · simp only [lpcDecStateStartDecode, hb, hf, if_false]
      exact ⟨hg, h0, Or.inr (Or.inl ⟨hi1, hS⟩)⟩

theorem lpcDecInv_addrDecode (s : LPCDEC) (bLad : Nat) (h : lpcDecInv s) :
    lpcDecInv (lpcDecStateAddrDecode s bLad).1 := by
  unfold lpcDecStateAddrDecode
  by_cases hc : (s.cAddrCycles + 255) % 256 = 0
  · simp only [hc, if_true]
    exact lpcDecInv_advance _ (lpcDecInv_of_fields s _ h rfl rfl rfl rfl)
  · simp only [hc, if_false]
    exact lpcDecInv_of_fields s _ h rfl rfl rfl rfl

theorem lpcDecInv_dataDecode (s : LPCDEC) (bLad : Nat) (h : lpcDecInv s) :
    lpcDecInv (lpcDecStateDataDecode s bLad).1 := by
  unfold lpcDecStateDataDecode
  by_cases hc : (s.iDataCycle + 1) % 256 = s.cDataCycles
  · simp only [hc, if_true]
    exact lpcDecInv_advance _ (lpcDecInv_of_fields s _ h rfl rfl rfl rfl)
  · simp only [hc, if_false]
    exact lpcDecInv_of_fields s _ h rfl rfl rfl rfl

theorem lpcDecInv_tarDecode (s : LPCDEC) (bLad : Nat) (h : lpcDecInv s) :
    lpcDecInv (lpcDecStateTarDecode s bLad).1 := by
  unfold lpcDecStateTarDecode
  by_cases hc : (s.cTarCycles + 255) % 256 = 0
  · simp only [hc, if_true]
    exact lpcDecInv_advance _ (lpcDecInv_of_fields s _ h rfl rfl rfl rfl)
  · simp only [hc, if_false]
    exact lpcDecInv_of_fields s _ h rfl rfl rfl rfl

theorem lpcDecInv_syncDecode (s : LPCDEC) (bLad : Nat) (h : lpcDecInv s) :
    lpcDecInv (lpcDecStateSyncDecode s bLad).1 := by
  unfold lpcDecStateSyncDecode
  by_cases hc : bLad = 0
  · simp only [hc, if_true]
    exact lpcDecInv_advance s h
  · simp only [hc, if_false]
    exact h

theorem lpcDecInv_frame (s : LPCDEC) (h : s.idxStateWriteMax ≤ 6) :
    lpcDecInv (lpcDecStateSet (lpcDecStateReset s) .START) := by
  refine ⟨?_, ?_, Or.inr (Or.inl ⟨?_, ?_⟩)⟩ <;>
    simp [lpcDecStateSet, lpcDecStateReset, arrayWrite, Nat.max_le, h]

theorem lpcDecInv_fallingDecode (s : LPCDEC) (uSeqNo bSample : Nat) (h : lpcDecInv s) :
    lpcDecInv (lpcDecStateFallingDecode s uSeqNo bSample).1 := by
  unfold lpcDecStateFallingDecode
  by_cases hfr : (!((bSample &&& (1 <<< s.u8BitLFrame)) != 0)) = true
  · simp only [hfr, if_true]
    exact lpcDecInv_frame _ h.1
  · simp only [Bool.not_eq_true] at hfr
    simp only [hfr, Bool.false_eq_true, if_false]
    obtain ⟨hg, h0, hcase⟩ := h
    rcases hcase with hc | hc | hc | hc | hc | hc | hc | hc | hc | hc | hc
    · have hcur : s.aenmState s.idxState = .LFRAME_WAIT_ASSERTED := by rw [hc]; exact h0
      simp only [hcur]
      exact ⟨hg, h0, Or.inl hc⟩
    · have hcur : s.aenmState s.idxState = .START := by rw [hc.1]; exact hc.2
      simp only [hcur]
      exact lpcDecInv_startDecode s _ ⟨hg, h0, Or.inr (Or.inl hc)⟩ hcur
    · have hcur : s.aenmState s.idxState = .ADDR := by rw [hc.1]; exact hc.2.2
      simp only [hcur]
      exact lpcDecInv_addrDecode s _ ⟨hg, h0, Or.inr (Or.inr (Or.inl hc))⟩
    · have hcur : s.aenmState s.idxState = .DATA := by rw [hc.2.1]; exact hc.2.2.2.2
      simp only [hcur]
      exact lpcDecInv_dataDecode s _ ⟨hg, h0, Or.inr (Or.inr (Or.inr (Or.inl hc)))⟩
    · have hcur : s.aenmState s.idxState = .TAR := by rw [hc.2.1]; exact hc.2.2.2.2.2
      simp only [hcur]
      exact lpcDecInv_tarDecode s _ ⟨hg, h0, Or.inr (Or.inr (Or.inr (Or.inr (Or.inl hc))))⟩
    · have hcur : s.aenmState s.idxState = .SYNC := by rw [hc.2.1]; exact hc.2.2.2.2.2.2
      simp only [hcur]
      exact lpcDecInv_syncDecode s _
        ⟨hg, h0, Or.inr (Or.inr (Or.inr (Or.inr (Or.inr (Or.inl hc)))))⟩
    · have hcur : s.aenmState s.idxState = .TAR := by rw [hc.2.1]; exact hc.2.2.2.2.2.2.2
      simp only [hcur]
      exact lpcDecInv_tarDecode s _
        ⟨hg, h0, Or.inr (Or.inr (Or.inr (Or.inr (Or.inr (Or.inr (Or.inl hc))))))⟩
    · have hcur : s.aenmState s.idxState = .TAR := by rw [hc.2.1]; exact hc.2.2.2.2
      simp only [hcur]
      exact lpcDecInv_tarDecode s _
        ⟨hg, h0, Or.inr (Or.inr (Or.inr (Or.inr (Or.inr (Or.inr (Or.inr (Or.inl hc)))))))⟩
    · have hcur : s.aenmState s.idxState = .SYNC := by rw [hc.2.1]; exact hc.2.2.2.2.2
      simp only [hcur]
      exact lpcDecInv_syncDecode s _
        ⟨hg, h0,
         Or.inr (Or.inr (Or.inr (Or.inr (Or.inr (Or.inr (Or.inr (Or.inr (Or.inl hc))))))))⟩
    · have hcur : s.aenmState s.idxState = .DATA := by rw [hc.2.1]; exact hc.2.2.2.2.2.2
      simp only [hcur]
      exact lpcDecInv_dataDecode s _
        ⟨hg, h0,
         Or.inr (Or.inr (Or.inr (Or.inr (Or.inr (Or.inr (Or.inr (Or.inr (Or.inr
           (Or.inl hc)))))))))⟩
    · have hcur : s.aenmState s.idxState = .TAR := by rw [hc.2.1]; exact hc.2.2.2.2.2.2.2
      simp only [hcur]
      exact lpcDecInv_tarDecode s _
        ⟨hg, h0,
         Or.inr (Or.inr (Or.inr (Or.inr (Or.inr (Or.inr (Or.inr (Or.inr (Or.inr
           (Or.inr hc)))))))))⟩

theorem lpcDecInv_process (s : LPCDEC) (uSeqNo bSample : Nat) (h : lpcDecInv s) :
    lpcDecInv (lpcDecStateSampleProcess s uSeqNo bSample).2.1 := by
  unfold lpcDecStateSampleProcess
  by_cases hclk : ((bSample &&& (1 <<< s.u8BitLClk)) != 0) = s.fClkLast
  · simp only [hclk, if_true]
    exact h
  · simp only [hclk, if_false]
    by_cases hfall : (s.fClkLast && !((bSample &&& (1 <<< s.u8BitLClk)) != 0)) = true
    · simp only [hfall, if_true]
      exact lpcDecInv_of_fields _ _
        (lpcDecInv_fallingDecode s uSeqNo bSample h) rfl rfl rfl rfl
    · simp only [hfall, Bool.false_eq_true, if_false]
      exact lpcDecInv_of_fields _ _ h rfl rfl rfl rfl

theorem lpcDecInv_run (s : LPCDEC) (samples : List (Nat × Nat)) (h : lpcDecInv s) :
    lpcDecInv (lpcDecRun s samples).1 := by
  induction samples generalizing s with
  | nil => exact h
  | cons smp rest ih =>
      exact ih _ (lpcDecInv_process s smp.1 smp.2 h)

theorem lpcDecInv_init (s : LPCDEC)
    (u8BitClk u8BitLFrame u8BitLad0 u8BitLad1 u8BitLad2 u8BitLad3 : Nat) :
    lpcDecInv (lpcDecStateInit s u8BitClk u8BitLFrame u8BitLad0 u8BitLad1 u8BitLad2 u8BitLad3) := by
  unfold lpcDecStateInit
  exact lpcDecInv_reset _ (by simp)

/-- C1: whenever a phase's nibble count reaches zero the decoder
advances exactly per the phase-advancement table: from ADDR, writes go
to DATA (2 nibbles) and reads to TAR (2 nibbles); from DATA, either
direction goes to TAR (2 nibbles); a completed TAR whose predecessor is
DATA (write) or ADDR (read) goes to SYNC, and a completed TAR with any
other predecessor emits a Completed (non-abort) decoded cycle and
resets to the wait-for-LFRAME state; from SYNC, writes go to TAR (2
nibbles) and reads to DATA (2 nibbles); the TAR decoder consumes
exactly 2 falling edges ignoring the sampled nibble, and the SYNC
decoder advances only on a sampled nibble of exactly zero, holding
otherwise. -/
theorem claim1_phase_advancement_table (s : LPCDEC) :
    (s.aenmState s.idxState = .ADDR → s.fWrite = true →
      lpcDecStateSampleAdvance s = ({ lpcDecStateSet s .DATA with cDataCycles := 2 }, []))
  ∧ (s.aenmState s.idxState = .ADDR → s.fWrite = false →
      lpcDecStateSampleAdvance s = ({ lpcDecStateSet s .TAR with cTarCycles := 2 }, []))
  ∧ (s.aenmState s.idxState = .DATA →
      lpcDecStateSampleAdvance s = ({ lpcDecStateSet s .TAR with cTarCycles := 2 }, []))
  ∧ (s.aenmState s.idxState = .TAR → s.fWrite = true →
      s.aenmState ((s.idxState + 4294967295) % 4294967296) = .DATA →
      lpcDecStateSampleAdvance s = (lpcDecStateSet s .SYNC, []))
  ∧ (s.aenmState s.idxState = .TAR → s.fWrite = false →
      s.aenmState ((s.idxState + 4294967295) % 4294967296) = .ADDR →
      lpcDecStateSampleAdvance s = (lpcDecStateSet s .SYNC, []))
  ∧ (s.aenmState s.idxState = .TAR → s.fWrite = true →
      s.aenmState ((s.idxState + 4294967295) % 4294967296) ≠ .DATA →
      lpcDecStateSampleAdvance s = (lpcDecStateReset s, [lpcDecStateDump s false]))
  ∧ (s.aenmState s.idxState = .TAR → s.fWrite = false →
      s.aenmState ((s.idxState + 4294967295) % 4294967296) ≠ .ADDR →
      lpcDecStateSampleAdvance s = (lpcDecStateReset s, [lpcDecStateDump s false]))
  ∧ (s.aenmState s.idxState = .SYNC → s.fWrite = true →
      lpcDecStateSampleAdvance s = ({ lpcDecStateSet s .TAR with cTarCycles := 2 }, []))
  ∧ (s.aenmState s.idxState = .SYNC → s.fWrite = false →
      lpcDecStateSampleAdvance s = ({ lpcDecStateSet s .DATA with cDataCycles := 2 }, []))
  ∧ ((lpcDecStateReset s).aenmState (lpcDecStateReset s).idxState = .LFRAME_WAIT_ASSERTED)
  ∧ (∀ bLad, s.cTarCycles = 2 →
      lpcDecStateTarDecode s bLad = ({ s with cTarCycles := 1 }, []))
  ∧ (∀ bLad, s.cTarCycles = 1 →
      lpcDecStateTarDecode s bLad = lpcDecStateSampleAdvance { s with cTarCycles := 0 })
  ∧ (∀ bLad, bLad ≠ 0 → lpcDecStateSyncDecode s bLad = (s, []))
  ∧ (lpcDecStateSyncDecode s 0 = lpcDecStateSampleAdvance s) := by
  refine ⟨?_, ?_, ?_, ?_, ?_, ?_, ?_, ?_, ?_, ?_, ?_, ?_, ?_, ?_⟩
  · intro h1 h2; simp [lpcDecStateSampleAdvance, h1, h2]
  · intro h1 h2; simp [lpcDecStateSampleAdvance, h1, h2]
  · intro h1; simp [lpcDecStateSampleAdvance, h1]
  · intro h1 h2 h3; simp [lpcDecStateSampleAdvance, h1, h2, h3]
  · intro h1 h2 h3; simp [lpcDecStateSampleAdvance, h1, h2, h3]
  · intro h1 h2 h3; simp [lpcDecStateSampleAdvance, h1, h2, h3]
  · intro h1 h2 h3; simp [lpcDecStateSampleAdvance, h1, h2, h3]
  · intro h1 h2; simp [lpcDecStateSampleAdvance, h1, h2]
  · intro h1 h2; simp [lpcDecStateSampleAdvance, h1, h2]
  · simp [lpcDecStateReset, arrayWrite]
  · intro bLad h; simp [lpcDecStateTarDecode, h]
  · intro bLad h; simp [lpcDecStateTarDecode, h]
  · intro bLad h; simp [lpcDecStateSyncDecode, h]
  · simp [lpcDecStateSyncDecode]

/-- Witness for C1: at a concrete write-cycle state in the ADDR phase,
the advance pushes DATA with a 2-nibble count. -/
theorem claim1_phase_advancement_table_witness :
    lpcDecStateSampleAdvance advDemoDec
      = ({ lpcDecStateSet advDemoDec .DATA with cDataCycles := 2 }, []) :=
  (claim1_phase_advancement_table advDemoDec).1 (by decide) rfl

/-- C2: on a falling edge in the START phase with last start nibble 0x0,
the sampled LAD nibble classifies the cycle: its top two bits give the
type (0 IO, 1 Memory, 2 DMA, 3 Reserved), bit 1 the direction (0 read,
1 write); the address accumulator is reset; IO enters ADDR with 4
address nibbles and Memory with 8; DMA or Reserved report the
unsupported type and reset to the wait state without entering ADDR and
without emitting a decoded cycle. -/
theorem claim2_start_classification (s : LPCDEC) (bLad : Nat) (h : s.bStartLast = 0) :
    ((lpcDecStateStartDecode s bLad).1.bTyp = (bLad &&& 0xc) >>> 2)
  ∧ ((lpcDecStateStartDecode s bLad).1.fWrite = ((bLad &&& 0x2) != 0))
  ∧ ((lpcDecStateStartDecode s bLad).1.u32Addr = 0)
  ∧ ((bLad &&& 0xc) >>> 2 = 0 →
      (lpcDecStateStartDecode s bLad).1.aenmState (lpcDecStateStartDecode s bLad).1.idxState
          = .ADDR
      ∧ (lpcDecStateStartDecode s bLad).1.cAddrCycles = 4
      ∧ (lpcDecStateStartDecode s bLad).2 = [])
  ∧ ((bLad &&& 0xc) >>> 2 = 1 →
      (lpcDecStateStartDecode s bLad).1.aenmState (lpcDecStateStartDecode s bLad).1.idxState
          = .ADDR
      ∧ (lpcDecStateStartDecode s bLad).1.cAddrCycles = 8
      ∧ (lpcDecStateStartDecode s bLad).2 = [])
  ∧ (2 ≤ (bLad &&& 0xc) >>> 2 →
      (lpcDecStateStartDecode s bLad).1.aenmState (lpcDecStateStartDecode s bLad).1.idxState
          = .LFRAME_WAIT_ASSERTED
      ∧ (lpcDecStateStartDecode s bLad).1.idxState = 0
      ∧ (lpcDecStateStartDecode s bLad).2
          = [.unsupportedCycleType ((bLad &&& 0xc) >>> 2)]) := by
  by_cases h0 : (bLad &&& 0xc) >>> 2 = 0
  · refine ⟨?_, ?_, ?_, ?_, ?_, ?_⟩ <;>
      simp [lpcDecStateStartDecode, h, h0, lpcDecStateSet, lpcDecStateReset, arrayWrite]
  · by_cases h1 : (bLad &&& 0xc) >>> 2 = 1
    · refine ⟨?_, ?_, ?_, ?_, ?_, ?_⟩ <;>
        simp [lpcDecStateStartDecode, h, h0, h1, lpcDecStateSet, lpcDecStateReset, arrayWrite]
    · refine ⟨?_, ?_, ?_, ?_, ?_, ?_⟩ <;>
        simp [lpcDecStateStartDecode, h, h0, h1, lpcDecStateSet, lpcDecStateReset, arrayWrite]

/-- Witness for C2: nibble 0x6 (type bits 01, direction bit 1) at a
concrete START state classifies as a Memory write with 8 address
nibbles, entering the ADDR phase. -/
theorem claim2_start_classification_witness :
    (lpcDecStateStartDecode startDemoDec 6).1.cAddrCycles = 8
  ∧ (lpcDecStateStartDecode startDemoDec 6).1.fWrite = true
  ∧ (lpcDecStateStartDecode startDemoDec 6).1.aenmState
      (lpcDecStateStartDecode startDemoDec 6).1.idxState = .ADDR := by
  have h := claim2_start_classification startDemoDec 6 rfl
  exact ⟨(h.2.2.2.2.1 rfl).2.1, h.2.1.trans (by decide), (h.2.2.2.2.1 rfl).1⟩

/-- C3: a sample whose clock bit equals the stored clock level leaves
the decoder completely unchanged and emits nothing, and a sample whose
clock bit rose from 0 to 1 performs no decoding — everything except the
stored clock level is unchanged and no event is emitted; decoding
happens only on a falling 1-to-0 edge. -/
theorem claim3_decode_only_on_falling_edge (s : LPCDEC) (uSeqNo bSample : Nat) :
    (((bSample &&& (1 <<< s.u8BitLClk)) != 0) = s.fClkLast →
      lpcDecStateSampleProcess s uSeqNo bSample = (0, s, []))
  ∧ (s.fClkLast = false → bSample &&& (1 <<< s.u8BitLClk) ≠ 0 →
      lpcDecStateSampleProcess s uSeqNo bSample = (0, { s with fClkLast := true }, [])) := by
  constructor
  · intro h
    simp [lpcDecStateSampleProcess, h]
  · intro h1 h2
    have h3 : ((bSample &&& (1 <<< s.u8BitLClk)) != 0) = true := by
      simpa using h2
    simp [lpcDecStateSampleProcess, h3, h1]

/-- Witness for C3: an unchanged high clock is a complete no-op, and a
rising edge changes nothing but the stored clock level. -/
theorem claim3_decode_only_on_falling_edge_witness :
    lpcDecStateSampleProcess baseDec 0 1 = (0, baseDec, [])
  ∧ lpcDecStateSampleProcess { baseDec with fClkLast := false } 0 1
      = (0, { { baseDec with fClkLast := false } with fClkLast := true }, []) :=
  ⟨(claim3_decode_only_on_falling_edge baseDec 0 1).1 (by decide),
   (claim3_decode_only_on_falling_edge { baseDec with fClkLast := false } 0 1).2
     rfl (by decide)⟩

/-- C4: on a falling edge with the FRAME strobe asserted (bit 0), if
the current phase is neither the wait state nor START then exactly one
Aborted decoded cycle carrying the state accumulated so far is emitted,
and none is emitted otherwise; in all cases the sampled LAD nibble is
recorded as the last start nibble, the sequence number as the cycle
sequence number, the state is reset and START is immediately pushed;
the returned status is 0. -/
theorem claim4_frame_assertion_abort (s : LPCDEC) (uSeqNo bSample : Nat)
    (hlast : s.fClkLast = true)
    (hclk : bSample &&& (1 <<< s.u8BitLClk) = 0)
    (hframe : bSample &&& (1 <<< s.u8BitLFrame) = 0) :
    (lpcDecStateSampleProcess s uSeqNo bSample).1 = 0
  ∧ (s.aenmState s.idxState ≠ .LFRAME_WAIT_ASSERTED ∧ s.aenmState s.idxState ≠ .START →
      (lpcDecStateSampleProcess s uSeqNo bSample).2.2 = [lpcDecStateDump s true])
  ∧ (s.aenmState s.idxState = .LFRAME_WAIT_ASSERTED ∨ s.aenmState s.idxState = .START →
      (lpcDecStateSampleProcess s uSeqNo bSample).2.2 = [])
  ∧ (lpcDecStateSampleProcess s uSeqNo bSample).2.1
      = { lpcDecStateSet
            (lpcDecStateReset
              { s with bStartLast := lpcDecStateLadExtractFromSample s bSample
                     , uSeqNoCycle := uSeqNo }) .START
          with fClkLast := false } := by
  refine ⟨?_, ?_, ?_, ?_⟩
  · simp [lpcDecStateSampleProcess, lpcDecStateFallingDecode, hclk, hlast, hframe]
  · intro h
    simp [lpcDecStateSampleProcess, lpcDecStateFallingDecode, hclk, hlast, hframe, h.1, h.2]
  · intro h
    rcases h with h | h <;>
      simp [lpcDecStateSampleProcess, lpcDecStateFallingDecode, hclk, hlast, hframe, h]
  · simp [lpcDecStateSampleProcess, lpcDecStateFallingDecode, hclk, hlast, hframe]

/-- Witness for C4: a FRAME assertion while mid-cycle in the ADDR phase
emits exactly one aborted decoded cycle and returns status 0. -/
theorem claim4_frame_assertion_abort_witness :
    (lpcDecStateSampleProcess advDemoDec 7 0).2.2 = [lpcDecStateDump advDemoDec true]
  ∧ (lpcDecStateSampleProcess advDemoDec 7 0).1 = 0 :=
  ⟨(claim4_frame_assertion_abort advDemoDec 7 0 rfl rfl rfl).2.1 (by decide),
   (claim4_frame_assertion_abort advDemoDec 7 0 rfl rfl rfl).1⟩

/-- C5: in the ADDR phase each falling edge decrements the remaining
address-nibble count and ORs the sampled nibble into the address
accumulator shifted left by the new count times 4 bits, so address
nibbles assemble most-significant-first (nibbles 1,2,3,4,0,0,0,0 of a
Memory cycle reassemble to 0x12340000); the state machine advances
exactly when the counter reaches zero. -/
theorem claim5_address_assembly (s : LPCDEC) (bLad : Nat)
    (h1 : 1 ≤ s.cAddrCycles) (h2 : s.cAddrCycles ≤ 8)
    (h3 : s.u32Addr < 4294967296) (h4 : bLad < 16) :
    (2 ≤ s.cAddrCycles →
      lpcDecStateAddrDecode s bLad
        = ({ s with cAddrCycles := s.cAddrCycles - 1
                  , u32Addr := s.u32Addr ||| (bLad <<< ((s.cAddrCycles - 1) * 4)) }, []))
  ∧ (s.cAddrCycles = 1 →
      lpcDecStateAddrDecode s bLad
        = lpcDecStateSampleAdvance { s with cAddrCycles := 0, u32Addr := s.u32Addr ||| bLad })
  ∧ (List.foldl (fun st n => (lpcDecStateAddrDecode st n).1) addrDemoDec
        [1, 2, 3, 4, 0, 0, 0, 0]).u32Addr = 0x12340000 := by
  have hdec : (s.cAddrCycles + 255) % 256 = s.cAddrCycles - 1 := by omega
  have hshift : bLad <<< ((s.cAddrCycles - 1) * 4) < 4294967296 := by
    have hb : bLad < 2 ^ 4 := h4
    have hs := Nat.shiftLeft_lt (m := (s.cAddrCycles - 1) * 4) hb
    have hle : 2 ^ (4 + (s.cAddrCycles - 1) * 4) ≤ 2 ^ 32 :=
      Nat.pow_le_pow_right (by norm_num) (by omega)
    calc bLad <<< ((s.cAddrCycles - 1) * 4) < 2 ^ (4 + (s.cAddrCycles - 1) * 4) := hs
      _ ≤ 2 ^ 32 := hle
      _ = 4294967296 := by norm_num
  have hor : (s.u32Addr ||| (bLad <<< ((s.cAddrCycles - 1) * 4))) < 4294967296 := by
    have h32 : (4294967296 : Nat) = 2 ^ 32 := by norm_num
    rw [h32] at h3 hshift ⊢
    exact lor_lt_pow2 h3 hshift
  refine ⟨?_, ?_, ?_⟩
  · intro hge
    have hne : ¬ (s.cAddrCycles - 1 = 0) := by omega
    simp [lpcDecStateAddrDecode, hdec, hne, Nat.mod_eq_of_lt hor]
  · intro heq
    have hor1 : (s.u32Addr ||| bLad) < 4294967296 := by
      have h32 : (4294967296 : Nat) = 2 ^ 32 := by norm_num
      rw [h32] at h3 ⊢
      exact lor_lt_pow2 h3 (by omega)
    simp [lpcDecStateAddrDecode, heq, Nat.mod_eq_of_lt hor1]
  · decide

/-- Witness for C5: the first address nibble of the concrete Memory
write lands in the most significant position. -/
theorem claim5_address_assembly_witness :
    lpcDecStateAddrDecode addrDemoDec 1
      = ({ addrDemoDec with
             cAddrCycles := addrDemoDec.cAddrCycles - 1
           , u32Addr := addrDemoDec.u32Addr |||
               (1 <<< ((addrDemoDec.cAddrCycles - 1) * 4)) }, []) :=
  (claim5_address_assembly addrDemoDec 1
    (by decide) (by decide) (by decide) (by decide)).1 (by decide)

/-- C6: in the DATA phase each falling edge ORs the sampled nibble into
the data accumulator shifted left by the data index times 4 (first
nibble least significant, so nibbles 0xB then 0xA reassemble to 0xAB),
increments the index, and advances the state machine exactly when the
index reaches the fixed count of 2. -/
theorem claim6_data_assembly (s : LPCDEC) (bLad : Nat)
    (hcnt : s.cDataCycles = 2) (hb : s.bData < 256) (hlad : bLad < 16) :
    (s.iDataCycle = 0 →
      lpcDecStateDataDecode s bLad
        = ({ s with bData := s.bData ||| bLad, iDataCycle := 1 }, []))
  ∧ (s.iDataCycle = 1 →
      lpcDecStateDataDecode s bLad
        = lpcDecStateSampleAdvance { s with bData := s.bData ||| (bLad <<< 4), iDataCycle := 2 })
  ∧ (lpcDecStateDataDecode ((lpcDecStateDataDecode dataDemoDec 0xB).1) 0xA).1.bData = 0xAB
  ∧ (lpcDecStateDataDecode ((lpcDecStateDataDecode dataDemoDec 0xB).1) 0xA).1.iDataCycle
      = 2 := by
  have h256 : (256 : Nat) = 2 ^ 8 := by norm_num
  refine ⟨?_, ?_, by decide, by decide⟩
  · intro hi
    have hor : (s.bData ||| bLad) < 256 := by
      rw [h256] at hb ⊢
      exact lor_lt_pow2 hb (by omega)
    simp [lpcDecStateDataDecode, hi, hcnt, Nat.mod_eq_of_lt hor]
  · intro hi
    have hsh : bLad <<< 4 < 256 := by
      have hx : bLad <<< 4 = bLad * 16 := by simp [Nat.shiftLeft_eq]
      omega
    have hor : (s.bData ||| (bLad <<< 4)) < 256 := by
      rw [h256] at hb hsh ⊢
      exact lor_lt_pow2 hb hsh
    simp [lpcDecStateDataDecode, hi, hcnt, Nat.mod_eq_of_lt hor]

/-- Witness for C6: the first data nibble of the concrete write cycle
lands in the least significant position and does not yet advance. -/
theorem claim6_data_assembly_witness :
    lpcDecStateDataDecode dataDemoDec 0xB
      = ({ dataDemoDec with bData := dataDemoDec.bData ||| 0xB, iDataCycle := 1 }, []) :=
  (claim6_data_assembly dataDemoDec 0xB rfl (by decide) (by decide)).1 rfl

/-- C7: for every sequence of input samples fed to a freshly initialized
decoder, the phase history stays within the reserved 9-element backing
array: the ghost running maximum of all array-write indices never
exceeds 8 (it in fact stays at most 6), and the history index itself
stays in bounds, so the unchecked array write never goes out of
bounds. -/
theorem claim7_phase_history_in_bounds (s0 : LPCDEC)
    (u8BitClk u8BitLFrame u8BitLad0 u8BitLad1 u8BitLad2 u8BitLad3 : Nat)
    (samples : List (Nat × Nat)) :
    ((lpcDecRun (lpcDecStateInit s0 u8BitClk u8BitLFrame u8BitLad0 u8BitLad1 u8BitLad2 u8BitLad3)
        samples).1).idxStateWriteMax ≤ 8
  ∧ ((lpcDecRun (lpcDecStateInit s0 u8BitClk u8BitLFrame u8BitLad0 u8BitLad1 u8BitLad2 u8BitLad3)
        samples).1).idxState ≤ 8 := by
  have h := lpcDecInv_run _ samples
    (lpcDecInv_init s0 u8BitClk u8BitLFrame u8BitLad0 u8BitLad1 u8BitLad2 u8BitLad3)
  obtain ⟨hg, h0, hcase⟩ := h
  constructor
  · omega
  · rcases hcase with h | h | h | h | h | h | h | h | h | h | h <;> omega

/-- Witness for C7: a concrete two-sample run from a garbage-initialized
state stays within the array bounds. -/
theorem claim7_phase_history_in_bounds_witness :
    ((lpcDecRun (lpcDecStateInit invalidPhaseDec 0 1 5 4 3 2) [(0, 3), (0, 2)]).1).idxStateWriteMax
      ≤ 8 :=
  (claim7_phase_history_in_bounds invalidPhaseDec 0 1 5 4 3 2 [(0, 3), (0, 2)]).1

/-- C8 counterexample: the claim says an unexpected phase value is
reported to the caller as a fatal internal-consistency failure of the
decoder instance and that decoding does not simply continue.  At the
concrete state whose current phase is the invalid value, processing a
falling-edge sample (byte 2: clock bit low, FRAME bit high) returns
status 0 — the only channel to the caller — leaves the phase history
untouched and merely updates the stored clock level, so decoding
continues; the only trace is a diagnostic event. -/
theorem claim8_counterexample :
    (lpcDecStateSampleProcess invalidPhaseDec 0 2).1 = 0
  ∧ (lpcDecStateSampleProcess invalidPhaseDec 0 2).2.2 = [.unknownState .INVALID]
  ∧ (lpcDecStateSampleProcess invalidPhaseDec 0 2).2.1.idxState = invalidPhaseDec.idxState
  ∧ (lpcDecStateSampleProcess invalidPhaseDec 0 2).2.1.aenmState 0 = .INVALID
  ∧ (lpcDecStateSampleProcess invalidPhaseDec 0 2).2.1.fClkLast = false := by
  decide

/-- C8 (amended): when the per-edge dispatcher or the phase-advancement
switch meets a phase value outside the known set, it emits the
Unknown-state diagnostic — the condition is not silently swallowed —
but it is not surfaced to the caller as a failure: sample processing
returns status 0, the decoder state is unchanged apart from the
recorded clock level, and decoding continues. -/
theorem claim8_unknown_phase_diagnostic_not_fatal (s : LPCDEC) (uSeqNo bSample : Nat)
    (hlast : s.fClkLast = true)
    (hclk : bSample &&& (1 <<< s.u8BitLClk) = 0)
    (hframe : bSample &&& (1 <<< s.u8BitLFrame) ≠ 0)
    (hcur : s.aenmState s.idxState = .INVALID) :
    lpcDecStateSampleProcess s uSeqNo bSample
        = (0, { s with fClkLast := false }, [.unknownState .INVALID])
  ∧ lpcDecStateSampleAdvance s = (s, [.unknownState .INVALID]) := by
  constructor
  · simp [lpcDecStateSampleProcess, lpcDecStateFallingDecode, hclk, hlast, hframe, hcur]
  · simp [lpcDecStateSampleAdvance, hcur]

/-- Witness for the amended C8: the concrete invalid-phase state yields
the diagnostic, status 0 and an otherwise unchanged state. -/
theorem claim8_unknown_phase_diagnostic_not_fatal_witness :
    lpcDecStateSampleProcess invalidPhaseDec 3 2
        = (0, { invalidPhaseDec with fClkLast := false }, [.unknownState .INVALID]) :=
  (claim8_unknown_phase_diagnostic_not_fatal invalidPhaseDec 3 2
    rfl rfl (by decide) rfl).1

/-- C9: the reset performed after an Aborted emission, a Completed
emission or an unsupported-type classification leaves the current phase
at the wait-for-LFRAME state with all accumulators zeroed (the abort
path then immediately pushes START on top, still with zeroed
accumulators), and reset is idempotent. -/
theorem claim9_reset_postconditions (s : LPCDEC) (bLad uSeqNo bSample : Nat) :
    ((lpcDecStateReset s).aenmState (lpcDecStateReset s).idxState = .LFRAME_WAIT_ASSERTED)
  ∧ ((lpcDecStateReset s).u32Addr = 0)
  ∧ ((lpcDecStateReset s).bData = 0)
  ∧ ((lpcDecStateReset s).iDataCycle = 0)
  ∧ (lpcDecStateReset (lpcDecStateReset s) = lpcDecStateReset s)
  ∧ (s.aenmState s.idxState = .TAR →
      (s.fWrite = true → s.aenmState ((s.idxState + 4294967295) % 4294967296) ≠ .DATA) →
      (s.fWrite = false → s.aenmState ((s.idxState + 4294967295) % 4294967296) ≠ .ADDR) →
      (lpcDecStateSampleAdvance s).1 = lpcDecStateReset s)
  ∧ (s.bStartLast = 0 → 2 ≤ (bLad &&& 0xc) >>> 2 →
      (lpcDecStateStartDecode s bLad).1.aenmState (lpcDecStateStartDecode s bLad).1.idxState
          = .LFRAME_WAIT_ASSERTED
      ∧ (lpcDecStateStartDecode s bLad).1.u32Addr = 0
      ∧ (lpcDecStateStartDecode s bLad).1.bData = 0
      ∧ (lpcDecStateStartDecode s bLad).1.iDataCycle = 0)
  ∧ (s.fClkLast = true → bSample &&& (1 <<< s.u8BitLClk) = 0 →
      bSample &&& (1 <<< s.u8BitLFrame) = 0 →
      (lpcDecStateSampleProcess s uSeqNo bSample).2.1.u32Addr = 0
      ∧ (lpcDecStateSampleProcess s uSeqNo bSample).2.1.bData = 0
      ∧ (lpcDecStateSampleProcess s uSeqNo bSample).2.1.iDataCycle = 0
      ∧ (lpcDecStateSampleProcess s uSeqNo bSample).2.1.aenmState 0
          = .LFRAME_WAIT_ASSERTED) := by
  refine ⟨by simp [lpcDecStateReset, arrayWrite], rfl, rfl, rfl, ?_, ?_, ?_, ?_⟩
  · have hfun : arrayWrite (arrayWrite s.aenmState 0 .LFRAME_WAIT_ASSERTED) 0
        .LFRAME_WAIT_ASSERTED = arrayWrite s.aenmState 0 .LFRAME_WAIT_ASSERTED := by
      funext j
      by_cases hj : j = 0 <;> simp [arrayWrite, hj]
    simp [lpcDecStateReset, hfun]
  · intro h1 h2 h3
    by_cases hw : s.fWrite
    · simp [lpcDecStateSampleAdvance, h1, hw, h2 hw]
    · simp at hw
      simp [lpcDecStateSampleAdvance, h1, hw, h3 hw]
  · intro h1 h2
    have h0 : ¬ ((bLad &&& 0xc) >>> 2 = 0) := by omega
    have h1t : ¬ ((bLad &&& 0xc) >>> 2 = 1) := by omega
    refine ⟨?_, ?_, ?_, ?_⟩ <;>
      simp [lpcDecStateStartDecode, h1, h0, h1t, lpcDecStateSet, lpcDecStateReset, arrayWrite]
  · intro h1 h2 h3
    refine ⟨?_, ?_, ?_, ?_⟩ <;>
      simp [lpcDecStateSampleProcess, lpcDecStateFallingDecode, h1, h2, h3,
            lpcDecStateSet, lpcDecStateReset, arrayWrite]

/-- Witness for C9: at a concrete state, reset is idempotent and zeroes
the address accumulator. -/
theorem claim9_reset_postconditions_witness :
    lpcDecStateReset (lpcDecStateReset advDemoDec) = lpcDecStateReset advDemoDec
  ∧ (lpcDecStateReset advDemoDec).u32Addr = 0 := by
  have h := claim9_reset_postconditions advDemoDec 0 0 0
  exact ⟨h.2.2.2.2.1, h.2.1⟩

/-- C10: reset modifies only the phase-history index (making the
history exactly the wait state at index 0), the address accumulator,
the data accumulator and the data-nibble index; the pin map, stored
clock level, last start nibble, cycle type, direction, cycle sequence
number, remaining address nibbles, remaining turnaround nibbles and
data-nibble count are all unchanged; in particular the last start
nibble and cycle sequence number recorded at FRAME assertion survive
the immediately following reset and are visible in the resulting
state. -/
theorem claim10_reset_touches_only_listed_fields (s : LPCDEC) (uSeqNo bSample : Nat) :
    ((lpcDecStateReset s).u8BitLClk = s.u8BitLClk)
  ∧ ((lpcDecStateReset s).u8BitLFrame = s.u8BitLFrame)
  ∧ ((lpcDecStateReset s).u8BitLad0 = s.u8BitLad0)
  ∧ ((lpcDecStateReset s).u8BitLad1 = s.u8BitLad1)
  ∧ ((lpcDecStateReset s).u8BitLad2 = s.u8BitLad2)
  ∧ ((lpcDecStateReset s).u8BitLad3 = s.u8BitLad3)
  ∧ ((lpcDecStateReset s).fClkLast = s.fClkLast)
  ∧ ((lpcDecStateReset s).bStartLast = s.bStartLast)
  ∧ ((lpcDecStateReset s).bTyp = s.bTyp)
  ∧ ((lpcDecStateReset s).fWrite = s.fWrite)
  ∧ ((lpcDecStateReset s).uSeqNoCycle = s.uSeqNoCycle)
  ∧ ((lpcDecStateReset s).cAddrCycles = s.cAddrCycles)
  ∧ ((lpcDecStateReset s).cDataCycles = s.cDataCycles)
  ∧ ((lpcDecStateReset s).cTarCycles = s.cTarCycles)
  ∧ ((lpcDecStateReset s).idxState = 0)
  ∧ (∀ j, (lpcDecStateReset s).aenmState j
        = if j = 0 then .LFRAME_WAIT_ASSERTED else s.aenmState j)
  ∧ ((lpcDecStateReset s).u32Addr = 0)
  ∧ ((lpcDecStateReset s).bData = 0)
  ∧ ((lpcDecStateReset s).iDataCycle = 0)
  ∧ (s.fClkLast = true → bSample &&& (1 <<< s.u8BitLClk) = 0 →
      bSample &&& (1 <<< s.u8BitLFrame) = 0 →
      (lpcDecStateSampleProcess s uSeqNo bSample).2.1.bStartLast
          = lpcDecStateLadExtractFromSample s bSample
      ∧ (lpcDecStateSampleProcess s uSeqNo bSample).2.1.uSeqNoCycle = uSeqNo) := by
  refine ⟨rfl, rfl, rfl, rfl, rfl, rfl, rfl, rfl, rfl, rfl, rfl, rfl, rfl, rfl, rfl, ?_,
          rfl, rfl, rfl, ?_⟩
  · intro j
    simp [lpcDecStateReset, arrayWrite]
  · intro h1 h2 h3
    constructor <;>
      simp [lpcDecStateSampleProcess, lpcDecStateFallingDecode, h1, h2, h3,
            lpcDecStateSet, lpcDecStateReset]

/-- Witness for C10: at a concrete mid-cycle state, reset keeps the
recorded start nibble and the FRAME-assertion path records the sequence
number so that it survives the reset. -/
theorem claim10_reset_touches_only_listed_fields_witness :
    (lpcDecStateReset advDemoDec).bStartLast = advDemoDec.bStartLast
  ∧ (lpcDecStateReset advDemoDec).cAddrCycles = advDemoDec.cAddrCycles
  ∧ (lpcDecStateSampleProcess advDemoDec 7 0).2.1.uSeqNoCycle = 7 := by
  obtain ⟨h1, h2, h3, h4, h5, h6, h7, h8, h9, h10, h11, h12, h13, h14, h15, h16, h17,
          h18, h19, h20⟩ := claim10_reset_touches_only_listed_fields advDemoDec 7 0
  exact ⟨h8, h12, (h20 rfl rfl rfl).2⟩
